import Mathlib

/-!
Shallow embedding of the chprops Python library (client.py, server.py,
common.py) for checking its natural-language specification.

Python dicts are modelled as insertion-ordered association lists, Python
lists as Lean lists, and Python exceptions as an explicit `Except` monad
over the `PyExc` type.  Asynchronous fan-out (`asyncio.create_task` calls
spawned from `Object.__setitem__` / `Server.add_object`) is modelled by
applying `Server.update` separately to the post-mutation state, which is
what those tasks do when they run.
-/

deriving instance DecidableEq for Except

namespace Chprops

/-- A JSON-style value as carried in protocol frames and object properties.
The only list-valued property in the repository is the Universe object's
`objects` list of integer ids, so lists are specialised to `List Int`. -/
inductive Val where
  | null
  | int (n : Int)
  | str (s : String)
  | bool (b : Bool)
  | ilist (xs : List Int)
deriving DecidableEq, Repr

/-- The Python exceptions that can arise in the embedded code paths. -/
inductive PyExc where
  | keyError
  | indexError
  | valueError
  | attrError
  | unboundLocalError
  | notAllowed
deriving DecidableEq, Repr

/-- `d[k] = v` on an insertion-ordered Python dict: replace the value in
place if the key is present, otherwise append the new binding. -/
def dictSet {α β : Type} [DecidableEq α] : List (α × β) → α → β → List (α × β)
  | [], k, v => [(k, v)]
  | (k0, v0) :: rest, k, v =>
      if k0 = k then (k, v) :: rest else (k0, v0) :: dictSet rest k v

/-- `d.get(k)`-style lookup on a Python dict. -/
def dictGet {α β : Type} [DecidableEq α] : List (α × β) → α → Option β
  | [], _ => none
  | (k0, v0) :: rest, k => if k0 = k then some v0 else dictGet rest k

/-- `del d[k]` on a Python dict: drop the binding for `k` (first match). -/
def dictDel {α β : Type} [DecidableEq α] : List (α × β) → α → List (α × β)
  | [], _ => []
  | (k0, v0) :: rest, k => if k0 = k then rest else (k0, v0) :: dictDel rest k

/-- The keys of a Python dict, in insertion order. -/
def dictKeys {α β : Type} (d : List (α × β)) : List α := d.map Prod.fst

/-- Python `list.remove(x)`: remove the first occurrence of `x`, raising
`ValueError` when `x` is absent. -/
def pyListRemove : List String → String → Except PyExc (List String)
  | [], _ => .error .valueError
  | x :: rest, y =>
      if x = y then .ok rest
      else match pyListRemove rest y with
        | .ok r => .ok (x :: r)
        | .error e => .error e

theorem dictGet_dictSet_self {α β : Type} [DecidableEq α]
    (d : List (α × β)) (k : α) (v : β) : dictGet (dictSet d k v) k = some v := by
  induction d with
  | nil => simp [dictSet, dictGet]
  | cons hd tl ih =>
      obtain ⟨k0, v0⟩ := hd
      by_cases h : k0 = k
      · simp [dictSet, dictGet, h]
      · simp [dictSet, dictGet, h, ih]

theorem dictGet_dictSet_ne {α β : Type} [DecidableEq α]
    (d : List (α × β)) (k k2 : α) (v : β) (h : k ≠ k2) :
    dictGet (dictSet d k v) k2 = dictGet d k2 := by
  induction d with
  | nil => simp [dictSet, dictGet, h]
  | cons hd tl ih =>
      obtain ⟨k0, v0⟩ := hd
      by_cases h0 : k0 = k
      · subst h0
        simp [dictSet, dictGet, h]
      · simp [dictSet, dictGet, h0, ih]

theorem mem_dictKeys_dictSet {α β : Type} [DecidableEq α]
    (d : List (α × β)) (k t : α) (v : β) :
    t ∈ dictKeys (dictSet d k v) ↔ t = k ∨ t ∈ dictKeys d := by
  induction d with
  | nil => simp [dictSet, dictKeys]
  | cons hd tl ih =>
      obtain ⟨k0, v0⟩ := hd
      by_cases h0 : k0 = k
      · subst h0
        have hred : dictSet ((k0, v0) :: tl) k0 v = (k0, v) :: tl := by
          simp [dictSet]
        rw [hred]
        simp only [dictKeys, List.map_cons, List.mem_cons]
        tauto
      · simp only [dictSet, if_neg h0, dictKeys, List.map_cons, List.mem_cons] at ih ⊢
        rw [ih]
        tauto

theorem pyListRemove_of_not_mem (s : List String) (p : String) (h : p ∉ s) :
    pyListRemove s p = .error .valueError := by
  induction s with
  | nil => rfl
  | cons x rest ih =>
      simp only [List.mem_cons, not_or] at h
      have hx : x ≠ p := fun he => h.1 he.symm
      simp [pyListRemove, hx, ih h.2]

/-! ## Server side (src/chprops/server.py) -/

/-- A frame sent by the server over its session (`self.session.send(...)`).
`reply` and `update` mirror the dicts built in `Server.reply` and
`Server.update`; `identify` mirrors the constructor's frame. -/
inductive OutFrame where
  | identify (specialization : String) (server : String)
  | reply (token : Int) (status : String) (extra : List (String × Val))
  | update (object : Int) (property : String) (value : Val)
deriving DecidableEq, Repr

/-- `_ServerObjectMembership` together with the properties of the `Object`
it binds.  In Python the membership holds a reference `object_val` to a
shared `Object`; here each membership carries that object's property dict
by value (every `Object` added in the repository is freshly constructed,
so distinct ids never alias the same property dict, and mutations of the
Universe object's properties go through the id-0 entry). -/
structure SMembership where
  props : List (String × Val)
  subscriptions : List String
deriving DecidableEq, Repr

/-- The `Server.objects` table: id → membership. -/
structure ServerState where
  objects : List (Int × SMembership)
deriving DecidableEq, Repr

namespace SObject

/-- `Object.__getitem__`: `self.properties[key]`; a Python dict lookup
raises `KeyError` when the key is absent. -/
def getitem (props : List (String × Val)) (key : String) : Except PyExc Val :=
  match dictGet props key with
  | some v => .ok v
  | none => .error .keyError

/-- `Object.__setitem__`: `self.properties[key] = value`.  A Python dict
assignment always succeeds (creating the key if absent); `NotAllowed` is
defined in server.py but never raised anywhere in the repository, and the
fan-out `create_task(self.update_servers(...))` is modelled by applying
`Server.update` to the resulting state. -/
def setitem (props : List (String × Val)) (key : String) (value : Val) :
    Except PyExc (List (String × Val)) :=
  .ok (dictSet props key value)

end SObject

namespace Server

/-- `Server.reply`: returns immediately (sending nothing) when `token` is
`None`, otherwise sends one reply frame carrying the keyword arguments. -/
def reply (token : Option Int) (status : String) (extra : List (String × Val)) :
    List OutFrame :=
  match token with
  | none => []
  | some t => [.reply t status extra]

/-- `Server.update`: `self.objects[object_id]` raises `KeyError` for an
unknown id; otherwise sends one `update` frame iff `property` is in that
membership's subscription list. -/
def update (st : ServerState) (object_id : Int) (property : String) (value : Val) :
    Except PyExc (List OutFrame) :=
  match dictGet st.objects object_id with
  | none => .error .keyError
  | some m =>
      .ok (if property ∈ m.subscriptions then [.update object_id property value] else [])

/-- `Server.mtype_set`: "no such object" if the id is unknown; otherwise
stores the value via `Object.__setitem__`, replying "success", with the
dead `except NotAllowed` / `except IndexError` branches modelled as the
corresponding error matches. -/
def mtype_set (st : ServerState) (token : Option Int) (object : Int)
    (property : String) (value : Val) : Except PyExc (ServerState × List OutFrame) :=
  match dictGet st.objects object with
  | none => .ok (st, reply token "no such object" [])
  | some m =>
      match SObject.setitem m.props property value with
      | .ok props2 =>
          .ok (⟨dictSet st.objects object { m with props := props2 }⟩,
               reply token "success" [])
      | .error .notAllowed => .ok (st, reply token "not allowed" [])
      | .error .indexError => .ok (st, reply token "no such property" [])
      | .error e => .error e

/-- `Server.mtype_get`: "no such object" if the id is unknown; otherwise
reads the property via `Object.__getitem__`, catching only `IndexError`
(a Python dict raises `KeyError`, which therefore propagates). -/
def mtype_get (st : ServerState) (token : Option Int) (object : Int)
    (property : String) : Except PyExc (List OutFrame) :=
  match dictGet st.objects object with
  | none => .ok (reply token "no such object" [])
  | some m =>
      match SObject.getitem m.props property with
      | .ok v => .ok (reply token "success" [("value", v)])
      | .error .indexError => .ok (reply token "no such property" [])
      | .error e => .error e

/-- The loop of `Server.mtype_subscribe`: append each listed property to
the subscription list when it is not already present. -/
def subscribeLoop : List String → List String → List String
  | subs, [] => subs
  | subs, p :: rest => subscribeLoop (if p ∈ subs then subs else subs ++ [p]) rest

/-- `Server.mtype_subscribe`: "no such object" if the id is unknown;
otherwise run `subscribeLoop` and reply "success" (the object's property
dict is never consulted). -/
def mtype_subscribe (st : ServerState) (token : Option Int) (object : Int)
    (properties : List String) : ServerState × List OutFrame :=
  match dictGet st.objects object with
  | none => (st, reply token "no such object" [])
  | some m =>
      (⟨dictSet st.objects object
          { m with subscriptions := subscribeLoop m.subscriptions properties }⟩,
       reply token "success" [])

/-- The loop of `Server.mtype_unsubscribe` exactly as written: only when
the property is NOT in the subscription list does it attempt
`subscriptions.remove(property)`, whose `ValueError` is swallowed. -/
def unsubscribeLoop : List String → List String → List String
  | subs, [] => subs
  | subs, p :: rest =>
      unsubscribeLoop
        (if p ∈ subs then subs
         else match pyListRemove subs p with
           | .ok s2 => s2
           | .error _ => subs) rest

/-- `Server.mtype_unsubscribe`: "no such object" if the id is unknown;
otherwise run `unsubscribeLoop` and reply "success". -/
def mtype_unsubscribe (st : ServerState) (token : Option Int) (object : Int)
    (properties : List String) : ServerState × List OutFrame :=
  match dictGet st.objects object with
  | none => (st, reply token "no such object" [])
  | some m =>
      (⟨dictSet st.objects object
          { m with subscriptions := unsubscribeLoop m.subscriptions properties }⟩,
       reply token "success" [])

/-- `Server.add_object`: store a fresh membership for `id`, then execute
`self.objects[0].object_val["objects"].append(id)` — a `KeyError` if id 0
is absent or the Universe lacks an `objects` property, an
`AttributeError` (`.append` on a non-list) if that property is not a
list; the trailing `create_task(... update_servers ...)` fan-out is
modelled by applying `Server.update` to the resulting state. -/
def add_object (st : ServerState) (id : Int) (oprops : List (String × Val)) :
    Except PyExc ServerState :=
  match dictGet (dictSet st.objects id ⟨oprops, []⟩) 0 with
  | none => .error .keyError
  | some m0 =>
      match SObject.getitem m0.props "objects" with
      | .ok (.ilist l) =>
          .ok ⟨dictSet (dictSet st.objects id ⟨oprops, []⟩) 0
                { m0 with props := dictSet m0.props "objects" (.ilist (l ++ [id])) }⟩
      | .ok _ => .error .attrError
      | .error e => .error e

end Server

/-- The Universe object's properties as built by `Server.__init__`, one
`__setitem__` at a time: `type`, `version`, `objects`, `time`. -/
def universeProps : List (String × Val) :=
  dictSet (dictSet (dictSet (dictSet [] "type" (.str "universe"))
    "version" (.int 1)) "objects" (.ilist [])) "time" (.int 0)

/-- `Server.__init__`: empty object table, then `add_object(0, universe)`,
then `create_task(send(identify))`. -/
def serverInit (server_name : String) (specialization_name : String) :
    Except PyExc (ServerState × List OutFrame) :=
  match Server.add_object ⟨[]⟩ 0 universeProps with
  | .ok st => .ok (st, [.identify specialization_name server_name])
  | .error e => .error e

/-! ## Client side (src/chprops/client.py) -/

/-- A frame sent by the client.  `request` carries the full keyword
dictionary `json.dumps(kwargs)` of `Client.request`; `subscribeFrame`
mirrors the dict literal in `Client.subscribe`. -/
inductive CFrame where
  | request (fields : List (String × Val))
  | subscribeFrame (token : Option Int) (object : Int) (properties : List String)
deriving DecidableEq, Repr

/-- A `PendingRequest`: an `asyncio.Event` (initially clear) and the reply
message, `None` until resolved. -/
structure Pending where
  eventSet : Bool
  message : Option (List (String × Val))
deriving DecidableEq, Repr

/-- A fresh `PendingRequest()`. -/
def Pending.init : Pending := ⟨false, none⟩

/-- The client's token counter and `outstanding_replies` table. -/
structure ClientState where
  next_token : Int
  outstanding : List (Int × Pending)
deriving DecidableEq, Repr

/-- `Client.__init__`: `next_token = 1` (class default) and an empty
`outstanding_replies` table. -/
def clientInit : ClientState := ⟨1, []⟩

namespace Client

/-- `Client.generate_token`: return `next_token` and increment it. -/
def generate_token (st : ClientState) : Int × ClientState :=
  (st.next_token, { st with next_token := st.next_token + 1 })

/-- The synchronous prefix of `Client.request`, up to `await
req.event.wait()`: generate a token, attach it to the keyword fields,
record a fresh `PendingRequest` under the token, and send the frame. -/
def request_send (st : ClientState) (fields : List (String × Val)) :
    Int × ClientState × CFrame :=
  let tst := generate_token st
  let token := tst.1
  let fields2 := dictSet fields "token" (.int token)
  let st2 : ClientState :=
    { tst.2 with outstanding := dictSet tst.2.outstanding token Pending.init }
  (token, st2, .request fields2)

/-- The suffix of `Client.request` after the matching reply has set the
event: `del self.outstanding_replies[token]`. -/
def request_complete (st : ClientState) (token : Int) : ClientState :=
  { st with outstanding := dictDel st.outstanding token }

/-- The tokens attached to `k` successive `request` calls starting from
state `st`. -/
def issuedTokens : ClientState → Nat → List Int
  | _, 0 => []
  | st, k + 1 =>
      let r := request_send st []
      r.1 :: issuedTokens r.2.1 k

/-- `Client.mtype_reply`: `self.outstanding_replies[token].message = kwargs`
then `.event.set()`.  `token` is `kwargs["token"]`; an unknown token makes
the dict lookup raise `KeyError`, which nothing catches. -/
def mtype_reply (st : ClientState) (kwargs : List (String × Val)) (token : Int) :
    Except PyExc ClientState :=
  match dictGet st.outstanding token with
  | none => .error .keyError
  | some _ =>
      .ok { st with outstanding := dictSet st.outstanding token ⟨true, some kwargs⟩ }

/-- `Client.subscribe`: sends one `subscribe` frame with a `None` token. -/
def subscribe (object_id : Int) (properties : List String) : CFrame :=
  .subscribeFrame none object_id properties

end Client

/-- Client-side `Object.subscribe` (client.py lines 37-44), acting on the
proxy's `subscriptions` dict (callbacks are opaque, identified by `Nat`):
initialises `properties = []`, stores each callback locally, and sends
`Client.subscribe(object_id, properties)` — the loop never appends to
`properties`. -/
def clientObjectSubscribe (object_id : Int) (subs : List (String × Nat))
    (callbacks : List (String × Nat)) : List (String × Nat) × CFrame :=
  let properties : List String := []
  let subs2 := callbacks.foldl (fun s pc => dictSet s pc.1 pc.2) subs
  (subs2, Client.subscribe object_id properties)

/-! ## Message dispatch (`receive`, client.py 88-97 and server.py 92-102) -/

/-- The `mtype_*` methods defined on `Server`. -/
def serverMtypeMethods : List String :=
  ["mtype_set", "mtype_get", "mtype_subscribe", "mtype_unsubscribe"]

/-- The `mtype_*` methods defined on `Client`. -/
def clientMtypeMethods : List String :=
  ["mtype_update", "mtype_reply"]

/-- `getattr(self, name)`: `AttributeError` when no such method exists. -/
def getattrMethod (methods : List String) (name : String) : Except PyExc String :=
  if name ∈ methods then .ok name else .error .attrError

/-- What one `receive` call did: how many times the `unknown_mtype`
fallback ran, which handler was dispatched to, and whether the dispatch
itself completed or raised (the dispatched handler's own body is out of
scope of the trace). -/
structure RecvTrace where
  fallbackCalls : Nat
  handlerCalled : Option String
  result : Except PyExc Unit
deriving DecidableEq, Repr

/-- `Server.receive` on a decoded frame with the given `mtype`: on
`AttributeError` it awaits `unknown_mtype(**message)` and RETURNS
(server.py line 100), so an unknown mtype never reaches the
`await func(**message)` line.  `unknown_mtype` is supplied by the concrete
subclass (e.g. `TestServer` in test.py). -/
def serverReceiveTrace (mtype : String) : RecvTrace :=
  match getattrMethod serverMtypeMethods ("mtype_" ++ mtype) with
  | .ok f => ⟨0, some f, .ok ()⟩
  | .error _ => ⟨1, none, .ok ()⟩

/-- `Client.receive` on a decoded frame with the given `mtype`: the
`except AttributeError` branch awaits `unknown_mtype(**message)` but has
no `return` (unlike server.py), so control falls through to
`await func(**message)` with the local `func` never assigned, raising
`UnboundLocalError`. -/
def clientReceiveTrace (mtype : String) : RecvTrace :=
  match getattrMethod clientMtypeMethods ("mtype_" ++ mtype) with
  | .ok f => ⟨0, some f, .ok ()⟩
  | .error _ => ⟨1, none, .error .unboundLocalError⟩

/-! ## Derived states and helper lemmas -/

/-- The server state produced by `Server.__init__` (only the Universe
object, with id 0 just appended to its own `objects` list). -/
def initialServerObjects : ServerState :=
  ⟨[(0, ⟨[("type", Val.str "universe"), ("version", Val.int 1),
          ("objects", Val.ilist [0]), ("time", Val.int 0)], []⟩)]⟩

/-- The `objects` property of the Universe object (id 0) of a server. -/
def universeObjects (st : ServerState) : Option Val :=
  match dictGet st.objects 0 with
  | some m => dictGet m.props "objects"
  | none => none

/-- A sequence of `add_object` calls, each given the added object's
(fresh) property dict. -/
def addObjectsSeq (st : ServerState) :
    List (Int × List (String × Val)) → Except PyExc ServerState
  | [] => .ok st
  | (id, op) :: rest =>
      match Server.add_object st id op with
      | .ok st2 => addObjectsSeq st2 rest
      | .error e => .error e

/-- A one-object server like the one test.py builds around object id 1
(`value = 6`), with its peer subscribed to `"value"`. -/
def demoServerState : ServerState :=
  ⟨[(1, ⟨[("value", Val.int 6)], ["value"]⟩)]⟩

/-- The property dict of the test object added by test.py. -/
def testObjectProps : List (String × Val) :=
  dictSet (dictSet (dictSet [] "type" (.str "test")) "version" (.int 1))
    "value" (.int 6)

theorem dictGet_dictDel_ne {α β : Type} [DecidableEq α]
    (d : List (α × β)) (k u : α) (h : u ≠ k) :
    dictGet (dictDel d k) u = dictGet d u := by
  induction d with
  | nil => rfl
  | cons hd tl ih =>
      obtain ⟨k0, v0⟩ := hd
      by_cases h0 : k0 = k
      · subst h0
        have hku : k0 ≠ u := fun he => h he.symm
        simp [dictDel, dictGet, hku]
      · by_cases hu : k0 = u
        · simp [dictDel, dictGet, h0, hu, h]
        · simp [dictDel, dictGet, h0, hu, ih]

theorem unsubscribeLoop_id (ps : List String) :
    ∀ s, Server.unsubscribeLoop s ps = s := by
  induction ps with
  | nil => intro s; rfl
  | cons p rest ih =>
      intro s
      show Server.unsubscribeLoop
        (if p ∈ s then s
         else match pyListRemove s p with
           | .ok s2 => s2
           | .error _ => s) rest = s
      by_cases hp : p ∈ s
      · rw [if_pos hp]; exact ih s
      · rw [if_neg hp, pyListRemove_of_not_mem s p hp]
        exact ih s

theorem mem_subscribeLoop (ps : List String) :
    ∀ s p, p ∈ Server.subscribeLoop s ps ↔ p ∈ s ∨ p ∈ ps := by
  induction ps with
  | nil => intro s p; simp [Server.subscribeLoop]
  | cons q rest ih =>
      intro s p
      show p ∈ Server.subscribeLoop (if q ∈ s then s else s ++ [q]) rest ↔ _
      rw [ih]
      by_cases hq : q ∈ s
      · rw [if_pos hq]
        simp only [List.mem_cons]
        constructor
        · rintro (h | h)
          · exact Or.inl h
          · exact Or.inr (Or.inr h)
        · rintro (h | h | h)
          · exact Or.inl h
          · exact Or.inl (show p ∈ s by rw [h]; exact hq)
          · exact Or.inr h
      · rw [if_neg hq]
        simp only [List.mem_append, List.mem_singleton, List.mem_cons]
        tauto

theorem subscribeLoop_nodup (ps : List String) :
    ∀ s, s.Nodup → (Server.subscribeLoop s ps).Nodup := by
  induction ps with
  | nil => intro s h; exact h
  | cons q rest ih =>
      intro s h
      show (Server.subscribeLoop (if q ∈ s then s else s ++ [q]) rest).Nodup
      by_cases hq : q ∈ s
      · rw [if_pos hq]; exact ih s h
      · rw [if_neg hq]
        refine ih _ ?_
        simp [List.nodup_append, h, hq, List.disjoint_singleton]

theorem subscribeLoop_of_subset (ps : List String) :
    ∀ s, (∀ p ∈ ps, p ∈ s) → Server.subscribeLoop s ps = s := by
  induction ps with
  | nil => intro s _; rfl
  | cons q rest ih =>
      intro s h
      have hq : q ∈ s := h q (List.mem_cons_self q rest)
      show Server.subscribeLoop (if q ∈ s then s else s ++ [q]) rest = s
      rw [if_pos hq]
      exact ih s (fun p hp => h p (List.mem_cons_of_mem q hp))

theorem subscribeLoop_idem (s ps : List String) :
    Server.subscribeLoop (Server.subscribeLoop s ps) ps =
      Server.subscribeLoop s ps :=
  subscribeLoop_of_subset ps _ (fun p hp => (mem_subscribeLoop ps _ p).mpr (Or.inr hp))

/-- Running `addObjectsSeq` with ids distinct from the reserved id 0
succeeds and extends the Universe's `objects` list by those ids in order. -/
theorem addObjectsSeq_universe (adds : List (Int × List (String × Val))) :
    ∀ (st : ServerState) (l : List Int), (∀ p ∈ adds, p.1 ≠ 0) →
    universeObjects st = some (.ilist l) →
    ∃ st2, addObjectsSeq st adds = .ok st2 ∧
      universeObjects st2 = some (.ilist (l ++ adds.map Prod.fst)) := by
  induction adds with
  | nil =>
      intro st l _ hu
      exact ⟨st, rfl, by simpa using hu⟩
  | cons a rest ih =>
      intro st l h0 hu
      obtain ⟨id, op⟩ := a
      have hid : id ≠ 0 := h0 (id, op) (List.mem_cons_self _ _)
      obtain ⟨m0, hm0, hobjs⟩ :
          ∃ m0, dictGet st.objects 0 = some m0 ∧
            dictGet m0.props "objects" = some (.ilist l) := by
        unfold universeObjects at hu
        cases he : dictGet st.objects 0 with
        | none => rw [he] at hu; exact absurd hu (by simp)
        | some m => rw [he] at hu; exact ⟨m, rfl, hu⟩
      have hstep : Server.add_object st id op =
          .ok ⟨dictSet (dictSet st.objects id ⟨op, []⟩) 0
                { m0 with props := dictSet m0.props "objects" (.ilist (l ++ [id])) }⟩ := by
        simp only [Server.add_object, SObject.getitem,
          dictGet_dictSet_ne st.objects id 0 ⟨op, []⟩ hid, hm0, hobjs]
      have hu2 : universeObjects
          ⟨dictSet (dictSet st.objects id ⟨op, []⟩) 0
            { m0 with props := dictSet m0.props "objects" (.ilist (l ++ [id])) }⟩ =
          some (.ilist (l ++ [id])) := by
        unfold universeObjects
        rw [dictGet_dictSet_self]
        exact dictGet_dictSet_self m0.props "objects" (.ilist (l ++ [id]))
      obtain ⟨st2, hseq, hu3⟩ := ih _ (l ++ [id])
        (fun p hp => h0 p (List.mem_cons_of_mem _ hp)) hu2
      refine ⟨st2, ?_, ?_⟩
      · show (match Server.add_object st id op with
          | .ok st2 => addObjectsSeq st2 rest
          | .error e => .error e) = .ok st2
        rw [hstep]
        exact hseq
      · rw [hu3]
        simp

/-! ## Claim theorems -/

/-- Claim C1: the tokens attached to successive `Client.request` calls of
one client instance strictly increase, every issued token is positive and
differs from every token outstanding when the run began (so no token is
reused while its PendingRequest is outstanding), and the sent frame
carries the issued token in its `token` field. -/
theorem client_tokens_strictly_increase (k : Nat) :
    ∀ st : ClientState, 0 < st.next_token →
    (∀ t ∈ dictKeys st.outstanding, t < st.next_token) →
    List.Pairwise (fun a b => a < b) (Client.issuedTokens st k) ∧
    (∀ t ∈ Client.issuedTokens st k, 0 < t) ∧
    (∀ t ∈ Client.issuedTokens st k, ∀ u ∈ dictKeys st.outstanding, u < t) ∧
    (∀ fields, (Client.request_send st fields).2.2 =
      .request (dictSet fields "token" (.int st.next_token))) := by
  induction k with
  | zero =>
      intro st h1 _
      refine ⟨List.Pairwise.nil, ?_, ?_, fun fields => rfl⟩
      · intro t ht; exact absurd ht (by simp [Client.issuedTokens])
      · intro t ht; exact absurd ht (by simp [Client.issuedTokens])
  | succ k ih =>
      intro st h1 h2
      have hout : ((Client.request_send st []).2.1).outstanding =
          dictSet st.outstanding st.next_token Pending.init := rfl
      have hnext : ((Client.request_send st []).2.1).next_token =
          st.next_token + 1 := rfl
      have h1b : 0 < ((Client.request_send st []).2.1).next_token := by
        rw [hnext]; omega
      have h2b : ∀ t ∈ dictKeys ((Client.request_send st []).2.1).outstanding,
          t < ((Client.request_send st []).2.1).next_token := by
        intro t ht
        rw [hout] at ht
        rw [hnext]
        rcases (mem_dictKeys_dictSet _ _ _ _).mp ht with h | h
        · omega
        · have := h2 t h; omega
      obtain ⟨hp, hpos, hgt, _⟩ := ih ((Client.request_send st []).2.1) h1b h2b
      have hhead : Client.issuedTokens st (k + 1) =
          st.next_token :: Client.issuedTokens ((Client.request_send st []).2.1) k := rfl
      rw [hhead]
      refine ⟨?_, ?_, ?_, fun fields => rfl⟩
      · refine List.Pairwise.cons ?_ hp
        intro t ht
        have hu : st.next_token ∈ dictKeys ((Client.request_send st []).2.1).outstanding := by
          rw [hout]
          exact (mem_dictKeys_dictSet _ _ _ _).mpr (Or.inl rfl)
        exact hgt t ht st.next_token hu
      · intro t ht
        rcases List.mem_cons.mp ht with h | h
        · omega
        · exact hpos t h
      · intro t ht u hu
        rcases List.mem_cons.mp ht with h | h
        · have := h2 u hu; omega
        · have hu2 : u ∈ dictKeys ((Client.request_send st []).2.1).outstanding := by
            rw [hout]
            exact (mem_dictKeys_dictSet _ _ _ _).mpr (Or.inr hu)
          exact hgt t h u hu2

/-- Witness for C1 at a freshly constructed client, three requests. -/
theorem client_tokens_strictly_increase_witness :
    List.Pairwise (fun a b => a < b) (Client.issuedTokens clientInit 3) ∧
    (∀ t ∈ Client.issuedTokens clientInit 3, 0 < t) ∧
    (∀ t ∈ Client.issuedTokens clientInit 3, ∀ u ∈ dictKeys clientInit.outstanding, u < t) ∧
    (∀ fields, (Client.request_send clientInit fields).2.2 =
      .request (dictSet fields "token" (.int clientInit.next_token))) :=
  client_tokens_strictly_increase 3 clientInit (by decide)
    (by intro t ht; exact absurd ht (by simp [clientInit, dictKeys]))

/-- Claim C2 (refuted by the code): `mtype_unsubscribe`'s loop attempts
`subscriptions.remove(property)` only when the property is NOT in the
list, and the resulting `ValueError` is swallowed, so the loop changes
nothing; on a server whose peer is subscribed to `"value"`, unsubscribing
`["value"]` replies "success" but leaves the subscription in place, and a
subsequent `Server.update` for `"value"` still sends an update frame. -/
theorem unsubscribe_never_removes :
    (∀ subs properties, Server.unsubscribeLoop subs properties = subs) ∧
    Server.mtype_unsubscribe demoServerState (some 7) 1 ["value"] =
      (demoServerState, [.reply 7 "success" []]) ∧
    Server.update demoServerState 1 "value" (Val.int 9) =
      .ok [.update 1 "value" (Val.int 9)] :=
  ⟨fun subs properties => unsubscribeLoop_id properties subs, by decide, by decide⟩

/-- Claim C3 (refuted by the code): on the freshly initialised server,
`get` of a missing property on the existing object 0 raises `KeyError`
(the handler catches only `IndexError` while the property dict raises
`KeyError`) instead of replying "no such property", and `set` of a
missing property stores it and replies "success"; the "no such object"
half of the claim does hold. -/
theorem missing_property_reply_divergence :
    serverInit "srv" "spec" = .ok (initialServerObjects, [.identify "spec" "srv"]) ∧
    Server.mtype_get initialServerObjects (some 5) 0 "missing" = .error .keyError ∧
    Server.mtype_set initialServerObjects (some 6) 0 "missing" (Val.int 1) =
      .ok (⟨[(0, ⟨[("type", Val.str "universe"), ("version", Val.int 1),
                   ("objects", Val.ilist [0]), ("time", Val.int 0),
                   ("missing", Val.int 1)], []⟩)]⟩,
           [.reply 6 "success" []]) ∧
    Server.mtype_get initialServerObjects (some 5) 99 "missing" =
      .ok [.reply 5 "no such object" []] ∧
    Server.mtype_set initialServerObjects (some 6) 99 "missing" (Val.int 1) =
      .ok (initialServerObjects, [.reply 6 "no such object" []]) := by
  decide

/-- Claim C4: for an object id present in the table, `Server.update`
sends exactly one update frame iff the property is in that membership's
subscription list, and sends nothing otherwise. -/
theorem server_update_iff_subscribed (st : ServerState) (oid : Int)
    (p : String) (v : Val) (m : SMembership)
    (h : dictGet st.objects oid = some m) :
    Server.update st oid p v =
      .ok (if p ∈ m.subscriptions then [.update oid p v] else []) ∧
    (p ∈ m.subscriptions → Server.update st oid p v = .ok [.update oid p v]) ∧
    (p ∉ m.subscriptions → Server.update st oid p v = .ok []) := by
  unfold Server.update
  rw [h]
  refine ⟨rfl, ?_, ?_⟩ <;> intro hp <;> simp [hp]

/-- Witness for C4 on the demo server: `"value"` is subscribed (one frame
sent) and `"other"` is not. -/
theorem server_update_iff_subscribed_witness :
    (Server.update demoServerState 1 "value" (Val.int 7) =
      .ok (if "value" ∈ ["value"] then [.update 1 "value" (Val.int 7)] else []) ∧
     ("value" ∈ ["value"] → Server.update demoServerState 1 "value" (Val.int 7) =
      .ok [.update 1 "value" (Val.int 7)]) ∧
     ("value" ∉ ["value"] → Server.update demoServerState 1 "value" (Val.int 7) = .ok [])) ∧
    Server.update demoServerState 1 "other" (Val.int 7) = .ok [] :=
  ⟨server_update_iff_subscribed demoServerState 1 "value" (Val.int 7)
      ⟨[("value", Val.int 6)], ["value"]⟩ rfl,
   by decide⟩

/-- Claim C5: starting from the constructor (which registers the Universe
under id 0 and appends 0 to its own `objects` list), any sequence of
`add_object` calls whose ids avoid the reserved id 0 leaves the
Universe's `objects` property equal to exactly the ids passed, in call
order. -/
theorem universe_objects_tracks_adds (server_name : String)
    (specialization_name : String) (adds : List (Int × List (String × Val)))
    (h0 : ∀ p ∈ adds, p.1 ≠ 0) :
    ∃ st2, serverInit server_name specialization_name =
        .ok (initialServerObjects, [.identify specialization_name server_name]) ∧
      addObjectsSeq initialServerObjects adds = .ok st2 ∧
      universeObjects st2 = some (.ilist (0 :: adds.map Prod.fst)) := by
  obtain ⟨st2, h1, h2⟩ := addObjectsSeq_universe adds initialServerObjects [0] h0 rfl
  exact ⟨st2, rfl, h1, by simpa using h2⟩

/-- Witness for C5: adding test.py's object 1 yields `objects = [0, 1]`. -/
theorem universe_objects_tracks_adds_witness :
    ∃ st2, serverInit "chprops test script" "none" =
        .ok (initialServerObjects, [.identify "none" "chprops test script"]) ∧
      addObjectsSeq initialServerObjects [(1, testObjectProps)] = .ok st2 ∧
      universeObjects st2 = some (.ilist [0, 1]) := by
  have h := universe_objects_tracks_adds "chprops test script" "none"
    [(1, testObjectProps)] (by decide)
  simpa using h

/-- Claim C6: for an existing object, `mtype_subscribe` adds each listed
name only when absent, always replies "success" whatever the object's
property dict contains (the handler never reads it), subscribing twice
equals subscribing once, and duplicate-freeness of the subscription list
is preserved. -/
theorem subscribe_idempotent_and_permissive (st : ServerState) (token : Int)
    (object : Int) (properties : List String) (m : SMembership)
    (h : dictGet st.objects object = some m) :
    Server.mtype_subscribe st (some token) object properties =
      (⟨dictSet st.objects object
          { m with subscriptions := Server.subscribeLoop m.subscriptions properties }⟩,
       [.reply token "success" []]) ∧
    (∀ p, p ∈ Server.subscribeLoop m.subscriptions properties ↔
        p ∈ m.subscriptions ∨ p ∈ properties) ∧
    Server.subscribeLoop (Server.subscribeLoop m.subscriptions properties) properties =
      Server.subscribeLoop m.subscriptions properties ∧
    (m.subscriptions.Nodup → (Server.subscribeLoop m.subscriptions properties).Nodup) := by
  refine ⟨?_, ?_, subscribeLoop_idem _ _, subscribeLoop_nodup properties _⟩
  · unfold Server.mtype_subscribe
    rw [h]
    rfl
  · intro p
    exact mem_subscribeLoop properties m.subscriptions p

/-- Witness for C6 on the demo server: subscribing `["value", "other"]`
(with `"value"` already subscribed) adds only `"other"`. -/
theorem subscribe_idempotent_and_permissive_witness :
    Server.mtype_subscribe demoServerState (some 3) 1 ["value", "other"] =
      (⟨[(1, ⟨[("value", Val.int 6)], ["value", "other"]⟩)]⟩,
       [.reply 3 "success" []]) ∧
    Server.subscribeLoop ["value"] ["value", "other"] = ["value", "other"] :=
  ⟨((subscribe_idempotent_and_permissive demoServerState 3 1 ["value", "other"]
      ⟨[("value", Val.int 6)], ["value"]⟩ rfl).1).trans (by decide),
   by decide⟩

/-- Claim C7 (refuted by the code): client-side `Object.subscribe` does
register each callback locally, but its local `properties` list is
initialised empty and never appended to, so the subscribe frame carries
`properties = []` instead of the callbacks' property names. -/
theorem client_subscribe_sends_no_property_names :
    clientObjectSubscribe 1 [] [("value", 7)] =
      ([("value", 7)], CFrame.subscribeFrame none 1 []) ∧
    CFrame.subscribeFrame none 1 [] ≠ CFrame.subscribeFrame none 1 ["value"] := by
  decide

/-- Claim C8 (refuted on the client side): for an unrecognised `mtype`,
`Server.receive` calls the fallback once and returns without raising, but
`Client.receive` lacks the `return` in its `except AttributeError` branch
and therefore raises `UnboundLocalError` at `await func(**message)` after
the single fallback call; known mtypes dispatch without any fallback. -/
theorem unknown_mtype_fallback_traces :
    serverReceiveTrace "frobnicate" = ⟨1, none, .ok ()⟩ ∧
    clientReceiveTrace "frobnicate" = ⟨1, none, .error .unboundLocalError⟩ ∧
    serverReceiveTrace "set" = ⟨0, some "mtype_set", .ok ()⟩ ∧
    clientReceiveTrace "reply" = ⟨0, some "mtype_reply", .ok ()⟩ := by
  decide

/-- Claim C9 counterexample: a reply whose token matches no outstanding
PendingRequest makes `Client.mtype_reply` raise `KeyError` instead of
being handled as a non-fatal fallback. -/
theorem reply_unknown_token_raises :
    Client.mtype_reply clientInit
      [("mtype", Val.str "reply"), ("token", Val.int 1),
       ("status", Val.str "success")] 1 = .error .keyError := by
  decide

/-- Claim C9 as amended: a reply resolves exactly the PendingRequest
whose token matches (storing the reply's fields and setting its event,
leaving every other entry unchanged, and the request coroutine's deletion
then removes only that entry), while a reply with an unknown token makes
`mtype_reply` raise `KeyError`. -/
theorem reply_resolves_only_matching_token (st : ClientState)
    (kwargs : List (String × Val)) (token : Int) :
    (∀ p, dictGet st.outstanding token = some p →
      Client.mtype_reply st kwargs token =
        .ok { st with outstanding := dictSet st.outstanding token ⟨true, some kwargs⟩ } ∧
      dictGet (dictSet st.outstanding token ⟨true, some kwargs⟩) token =
        some ⟨true, some kwargs⟩ ∧
      (∀ u, u ≠ token →
        dictGet (dictSet st.outstanding token ⟨true, some kwargs⟩) u =
          dictGet st.outstanding u) ∧
      (∀ u, u ≠ token →
        dictGet (Client.request_complete
          { st with outstanding := dictSet st.outstanding token ⟨true, some kwargs⟩ }
          token).outstanding u = dictGet st.outstanding u)) ∧
    (dictGet st.outstanding token = none →
      Client.mtype_reply st kwargs token = .error .keyError) := by
  constructor
  · intro p hp
    refine ⟨?_, dictGet_dictSet_self _ _ _, ?_, ?_⟩
    · unfold Client.mtype_reply
      rw [hp]
    · intro u hu
      exact dictGet_dictSet_ne _ _ _ _ (fun he => hu he.symm)
    · intro u hu
      show dictGet (dictDel (dictSet st.outstanding token ⟨true, some kwargs⟩) token) u =
        dictGet st.outstanding u
      rw [dictGet_dictDel_ne _ _ _ hu]
      exact dictGet_dictSet_ne _ _ _ _ (fun he => hu he.symm)
  · intro h
    unfold Client.mtype_reply
    rw [h]

/-- Witness for C9's amended theorem at a client with one outstanding
request under token 1: the matching reply resolves it and an unknown
token 2 raises. -/
theorem reply_resolves_only_matching_token_witness :
    Client.mtype_reply ⟨2, [(1, Pending.init)]⟩ [("status", Val.str "success")] 1 =
      .ok ⟨2, [(1, ⟨true, some [("status", Val.str "success")]⟩)]⟩ ∧
    Client.mtype_reply ⟨2, [(1, Pending.init)]⟩ [("status", Val.str "success")] 2 =
      .error .keyError := by
  constructor
  · exact (((reply_resolves_only_matching_token ⟨2, [(1, Pending.init)]⟩
      [("status", Val.str "success")] 1).1 Pending.init rfl).1).trans (by decide)
  · exact (reply_resolves_only_matching_token ⟨2, [(1, Pending.init)]⟩
      [("status", Val.str "success")] 2).2 rfl

/-- Claim C10: for an existing object, `Object.__setitem__` always
succeeds (a dict assignment; `NotAllowed` is never raised anywhere in the
repository), so `mtype_set` always stores the value and replies
"success" — the "not allowed" and "no such property" branches are
unreachable. -/
theorem set_always_succeeds (st : ServerState) (token : Option Int)
    (object : Int) (property : String) (value : Val) (m : SMembership)
    (h : dictGet st.objects object = some m) :
    SObject.setitem m.props property value = .ok (dictSet m.props property value) ∧
    Server.mtype_set st token object property value =
      .ok (⟨dictSet st.objects object { m with props := dictSet m.props property value }⟩,
           Server.reply token "success" []) := by
  refine ⟨rfl, ?_⟩
  unfold Server.mtype_set
  rw [h]
  rfl

/-- Witness for C10 on the demo server, including a never-present key. -/
theorem set_always_succeeds_witness :
    (SObject.setitem [("value", Val.int 6)] "fresh" (Val.int 7) =
      .ok (dictSet [("value", Val.int 6)] "fresh" (Val.int 7)) ∧
     Server.mtype_set demoServerState (some 4) 1 "fresh" (Val.int 7) =
      .ok (⟨dictSet demoServerState.objects 1
              ⟨dictSet [("value", Val.int 6)] "fresh" (Val.int 7), ["value"]⟩⟩,
           Server.reply (some 4) "success" [])) :=
  set_always_succeeds demoServerState (some 4) 1 "fresh" (Val.int 7)
    ⟨[("value", Val.int 6)], ["value"]⟩ rfl

end Chprops
